import Mathlib

/- Verification of the go-data-transfer core: the message package
(src/message/message.go) and the manager's restart logic
(src/unnamed/part_000), rendered as a shallow embedding. -/

namespace DataTransfer

/-- Transfer identifier (`type TransferID uint64`), chosen by the initiator.
No arithmetic is performed on it, so `Nat` is adequate. -/
abbrev TransferID := Nat

/-- Peer identifier (libp2p `peer.ID`, a string type). -/
abbrev PeerID := String

/-- Unique string identifier of a voucher type (`type TypeIdentifier string`). -/
abbrev TypeIdentifier := String

/-- Content identifier (`cid.Cid`), modelled as a wrapped string; the zero
value plays the role of `cid.Undef`. -/
structure Cid where
  str : String
deriving DecidableEq, Repr

/-- The zero CID, `cid.Undef`. -/
def Cid.undef : Cid := ⟨""⟩

/-- Pair of initiator peer and transfer id (`ChannelID` in part_000). -/
structure ChannelID where
  initiator : PeerID
  id : TransferID
deriving DecidableEq, Repr

/-- The method `func (c ChannelID) String() string`, which formats
the pair as initiator, dash, transfer id. -/
def ChannelID.toString (c : ChannelID) : String :=
  c.initiator ++ "-" ++ ToString.toString c.id

/-- Channel statuses, part_000 lines 45 to 84. -/
inductive Status
  | requested
  | ongoing
  | transferFinished
  | responderCompleted
  | completed
  | failed
  | cancelled
  | senderPaused
  | receiverPaused
  | bothPaused
  | responderCompletedReceiverPaused
  | channelNotFoundError
deriving DecidableEq, Repr

/-- Modelled from the spec: `channels.IsChannelTerminated` is not under src;
section 3 of the spec makes Completed, Failed and Cancelled the terminal
statuses. -/
def IsChannelTerminated : Status → Bool
  | .completed => true
  | .failed => true
  | .cancelled => true
  | _ => false

/-- A voucher (a `Registerable`): an opaque application payload carrying a
type identifier. Serialization goes through the encoding environment and
may fail, as `encoding.Encode` may. -/
structure Voucher where
  vtype : TypeIdentifier
  payload : List Nat
deriving DecidableEq, Repr

/-- The `Type()` method of a voucher. -/
def Voucher.Type (v : Voucher) : TypeIdentifier := v.vtype

/-- An IPLD selector node, opaque at this layer. -/
structure Selector where
  payload : List Nat
deriving DecidableEq, Repr

/-- The `encoding` package's `Encode`, abstracted into the environment:
encoding a voucher or a selector may fail with an error. -/
structure Enc where
  encV : Voucher → Option (List Nat)
  encS : Selector → Option (List Nat)

/-- The `transferRequest` value. Fields `Canc`, `Updt`, `Paus`, `Pull`,
`VTyp`, `Vouch`, `Stor`, `BCid`, `XferID` come from src/message/message.go.
The fields `isRestart`, `complete` and `restartChannel` are modelled from
the spec (sections 4.2 and 6): the restart-capable message package that
part_000 calls (seven-argument `NewRequest`,
`RestartExistingChannelRequest`) is not under src, and per the spec a
request carries restart and complete flags and, for a restart, the channel
identifier. -/
structure TransferRequest where
  isRestart : Bool
  complete : Bool
  canc : Bool
  updt : Bool
  paus : Bool
  pull : Bool
  vTyp : TypeIdentifier
  vouch : List Nat
  stor : List Nat
  bCid : Option Cid
  xferID : TransferID
  restartChannel : ChannelID
deriving DecidableEq, Repr

/-- A request is a request (`IsRequest` of `DataTransferMessage`). -/
def TransferRequest.IsRequest (_ : TransferRequest) : Bool := true

/-- The `IsUpdate` observer of a request. -/
def TransferRequest.IsUpdate (r : TransferRequest) : Bool := r.updt

/-- The `IsPaused` observer of a request. -/
def TransferRequest.IsPaused (r : TransferRequest) : Bool := r.paus

/-- The `IsCancel` observer of a request. -/
def TransferRequest.IsCancel (r : TransferRequest) : Bool := r.canc

/-- The `IsPull` observer of a request. -/
def TransferRequest.IsPull (r : TransferRequest) : Bool := r.pull

/-- The `IsRestart` observer of a request (modelled from the spec; see
`TransferRequest`). -/
def TransferRequest.IsRestart (r : TransferRequest) : Bool := r.isRestart

/-- The `IsComplete` observer of a request (modelled from the spec flag
list of section 4.2, which gives requests a complete flag). -/
def TransferRequest.IsComplete (r : TransferRequest) : Bool := r.complete

/-- The `VoucherType` observer of a request. -/
def TransferRequest.VoucherType (r : TransferRequest) : TypeIdentifier := r.vTyp

/-- The `BaseCid` observer of a request: the stored pointer when present,
otherwise the zero CID. -/
def TransferRequest.BaseCid (r : TransferRequest) : Cid := r.bCid.getD Cid.undef

/-- The `transferResponse` value. Fields `Acpt`, `Updt`, `Paus`, `Canc`,
`VTyp`, `VRes`, `XferID` come from src/message/message.go; `complete` and
`voucherRequest` are modelled from the spec (section 6 response fields
`IsComplete` and `IsVoucherRequest`), the newer message package not being
under src. -/
structure TransferResponse where
  complete : Bool
  voucherRequest : Bool
  acpt : Bool
  canc : Bool
  updt : Bool
  paus : Bool
  vTyp : TypeIdentifier
  vRes : List Nat
  xferID : TransferID
deriving DecidableEq, Repr

/-- A response is not a request (`IsRequest` of `DataTransferMessage`). -/
def TransferResponse.IsRequest (_ : TransferResponse) : Bool := false

/-- The `IsUpdate` observer of a response. -/
def TransferResponse.IsUpdate (s : TransferResponse) : Bool := s.updt

/-- The `IsPaused` observer of a response. -/
def TransferResponse.IsPaused (s : TransferResponse) : Bool := s.paus

/-- The `IsCancel` observer of a response. -/
def TransferResponse.IsCancel (s : TransferResponse) : Bool := s.canc

/-- The `Accepted` observer of a response. -/
def TransferResponse.Accepted (s : TransferResponse) : Bool := s.acpt

/-- The `IsComplete` observer of a response (modelled from the spec). -/
def TransferResponse.IsComplete (s : TransferResponse) : Bool := s.complete

/-- The `IsVoucherRequest` observer of a response (modelled from the spec:
the revalidation prompt flag of sections 4.2 and 6). -/
def TransferResponse.IsVoucherRequest (s : TransferResponse) : Bool := s.voucherRequest

/-- The `VoucherResultType` observer of a response. -/
def TransferResponse.VoucherResultType (s : TransferResponse) : TypeIdentifier := s.vTyp

/-- `NewRequest` from src/message/message.go lines 53 to 73: encode the
voucher (may fail), reject the zero base CID, encode the selector (may
fail), and otherwise build the request. The `isRestart` parameter is the
one its callers in part_000 pass (the seven-argument version of the
repository is not under src); per the spec it is carried on the request and
plays no part in the failure conditions. -/
def NewRequest (enc : Enc) (id : TransferID) (isRestart : Bool) (isPull : Bool)
    (vtype : TypeIdentifier) (voucher : Voucher) (baseCid : Cid)
    (selector : Selector) : Except String TransferRequest :=
  match enc.encV voucher with
  | none => .error "Creating request: encoding error"
  | some vbytes =>
    if baseCid = Cid.undef then .error "base CID must be defined"
    else
      match enc.encS selector with
      | none => .error "Error encoding selector"
      | some selBytes =>
        .ok { isRestart := isRestart, complete := false, canc := false,
              updt := false, paus := false, pull := isPull, vTyp := vtype,
              vouch := vbytes, stor := selBytes, bCid := some baseCid,
              xferID := id, restartChannel := ⟨"", 0⟩ }

/-- `CancelRequest` from src/message/message.go lines 76 to 81. -/
def CancelRequest (id : TransferID) : TransferRequest :=
  { isRestart := false, complete := false, canc := true, updt := false,
    paus := false, pull := false, vTyp := "", vouch := [], stor := [],
    bCid := none, xferID := id, restartChannel := ⟨"", 0⟩ }

/-- `UpdateRequest` from src/message/message.go lines 84 to 96. -/
def UpdateRequest (enc : Enc) (id : TransferID) (isPaused : Bool)
    (vtype : TypeIdentifier) (voucher : Voucher) : Except String TransferRequest :=
  match enc.encV voucher with
  | none => .error "Creating request: encoding error"
  | some vbytes =>
    .ok { isRestart := false, complete := false, canc := false, updt := true,
          paus := isPaused, pull := false, vTyp := vtype, vouch := vbytes,
          stor := [], bCid := none, xferID := id, restartChannel := ⟨"", 0⟩ }

/-- Modelled from the spec: `RestartExistingChannelRequest` (called by
part_000 but not under src) builds the restart request that carries both
halves of the ChannelID so the responder can disambiguate. -/
def RestartExistingChannelRequest (channelId : ChannelID) : TransferRequest :=
  { isRestart := true, complete := false, canc := false, updt := false,
    paus := false, pull := false, vTyp := "", vouch := [], stor := [],
    bCid := none, xferID := channelId.id, restartChannel := channelId }

/-- `NewResponse` from src/message/message.go lines 99 to 112, with the
`complete` and `voucherRequest` flags of the spec defaulted to false. -/
def NewResponse (enc : Enc) (id : TransferID) (accepted : Bool) (isUpdate : Bool)
    (isPaused : Bool) (voucherResultType : TypeIdentifier)
    (voucherResult : Voucher) : Except String TransferResponse :=
  match enc.encV voucherResult with
  | none => .error "Creating request: encoding error"
  | some vbytes =>
    .ok { complete := false, voucherRequest := false, acpt := accepted,
          canc := false, updt := isUpdate, paus := isPaused,
          vTyp := voucherResultType, vRes := vbytes, xferID := id }

/-- `CancelResponse` from src/message/message.go lines 115 to 120. -/
def CancelResponse (id : TransferID) : TransferResponse :=
  { complete := false, voucherRequest := false, acpt := false, canc := true,
    updt := false, paus := false, vTyp := "", vRes := [], xferID := id }

/-- A token of the self-describing wire encoding. Modelled from the spec:
the cbor-gen generated marshal and unmarshal code for the envelope is not
under src; section 6 specifies a self-describing encoding with
deterministic field ordering, carrying vouchers and selectors as opaque
byte blobs. -/
inductive Tok
  | b (x : Bool)
  | n (x : Nat)
  | s (x : String)
  | bytes (x : List Nat)
  | null
deriving DecidableEq, Repr

/-- Serialize an optional CID field (null when absent). -/
def marshalCid : Option Cid → Tok
  | none => .null
  | some c => .s c.str

/-- Modelled from the spec: serialize a request in deterministic field
order. -/
def marshalRequest (r : TransferRequest) : List Tok :=
  [.b r.isRestart, .b r.complete, .b r.canc, .b r.updt, .b r.paus, .b r.pull,
   .s r.vTyp, .bytes r.vouch, .bytes r.stor, marshalCid r.bCid, .n r.xferID,
   .s r.restartChannel.initiator, .n r.restartChannel.id]

/-- Modelled from the spec: deserialize a request; fails on any malformed
token sequence. -/
def unmarshalRequest : List Tok → Option TransferRequest
  | [.b rs, .b co, .b ca, .b up, .b pa, .b pu, .s vt, .bytes vo, .bytes st,
     .null, .n x, .s ini, .n rid] =>
    some ⟨rs, co, ca, up, pa, pu, vt, vo, st, none, x, ⟨ini, rid⟩⟩
  | [.b rs, .b co, .b ca, .b up, .b pa, .b pu, .s vt, .bytes vo, .bytes st,
     .s c, .n x, .s ini, .n rid] =>
    some ⟨rs, co, ca, up, pa, pu, vt, vo, st, some ⟨c⟩, x, ⟨ini, rid⟩⟩
  | _ => none

/-- Modelled from the spec: serialize a response in deterministic field
order. -/
def marshalResponse (s : TransferResponse) : List Tok :=
  [.b s.complete, .b s.voucherRequest, .b s.acpt, .b s.canc, .b s.updt,
   .b s.paus, .s s.vTyp, .bytes s.vRes, .n s.xferID]

/-- Modelled from the spec: deserialize a response. -/
def unmarshalResponse : List Tok → Option TransferResponse
  | [.b co, .b vr, .b ac, .b ca, .b up, .b pa, .s vt, .bytes res, .n x] =>
    some ⟨co, vr, ac, ca, up, pa, vt, res, x⟩
  | _ => none

/-- The on-wire envelope `transferMessage`: an IsRq flag plus a request or
a response. The struct itself is not under src; modelled from the spec
(section 9: a tagged variant with an IsRequest flag) and its use in
`FromNet`. -/
structure TransferMessage where
  isRq : Bool
  request : Option TransferRequest
  response : Option TransferResponse
deriving DecidableEq, Repr

/-- The envelope's `IsRequest` method. -/
def TransferMessage.IsRequest (t : TransferMessage) : Bool := t.isRq

/-- A data transfer message is either a request or a response
(`DataTransferMessage` of src/message/message.go, as the tagged variant the
spec's section 9 prescribes). -/
inductive DTMessage
  | request (r : TransferRequest)
  | response (s : TransferResponse)
deriving DecidableEq, Repr

/-- `ToNet` of a request: wrap in an envelope flagged as request and
marshal. -/
def TransferRequest.ToNet (r : TransferRequest) : List Tok :=
  .b true :: marshalRequest r

/-- `ToNet` of a response: wrap in an envelope flagged as response and
marshal. -/
def TransferResponse.ToNet (s : TransferResponse) : List Tok :=
  .b false :: marshalResponse s

/-- `ToNet` on either kind of message. -/
def ToNet : DTMessage → List Tok
  | .request r => r.ToNet
  | .response s => s.ToNet

/-- The envelope's `UnmarshalCBOR`, modelled from the spec: returns the
partially decoded envelope together with an optional decoding error; on a
body error the already-decoded IsRq flag is retained, as the generated
unmarshaller retains already-decoded fields. -/
def unmarshalMessage (tks : List Tok) : TransferMessage × Option String :=
  match tks with
  | .b true :: rest =>
    match unmarshalRequest rest with
    | some r => (⟨true, some r, none⟩, none)
    | none => (⟨true, none, none⟩, some "malformed request body")
  | .b false :: rest =>
    match unmarshalResponse rest with
    | some s => (⟨false, none, some s⟩, none)
    | none => (⟨false, none, none⟩, some "malformed response body")
  | _ => (⟨false, none, none⟩, some "malformed message")

/-- `FromNet` from src/message/message.go lines 122 to 130: unmarshal the
envelope; when the envelope reports a request, return the request together
with a nil error; otherwise return the response together with the
unmarshal error. -/
def FromNet (tks : List Tok) : Option DTMessage × Option String :=
  let tresp := unmarshalMessage tks
  if tresp.1.IsRequest then (tresp.1.request.map DTMessage.request, none)
  else (tresp.1.response.map DTMessage.response, tresp.2)

/-- The slice of `datatransfer.ChannelState` the restart logic reads:
channel identity, the two parties, the immutable transfer parameters, the
current status and the CIDs already received. -/
structure ChanState where
  channelID : ChannelID
  sender : PeerID
  recipient : PeerID
  baseCID : Cid
  selector : Selector
  voucher : Voucher
  status : Status
  receivedCids : List Cid
deriving DecidableEq, Repr

/-- `OtherParty` of a channel (the channel implementation is not under src;
modelled from the spec, section 3: exactly one of sender and recipient is
this peer, and the method returns the opposite one). -/
def ChanState.OtherParty (c : ChanState) (thisParty : PeerID) : PeerID :=
  if thisParty = c.sender then c.recipient else c.sender

/-- The channel store, as read through `channels.GetByID`: a partial map
from channel identifiers to channel states. -/
abbrev Store := ChannelID → Option ChanState

/-- Modelled from the spec: `channels.Error` is not under src; section 4.3
specifies that `Error(chid, reason)` moves any non-terminal channel to
Failed (and stores the diagnostic, which this model does not track). -/
def channelsError (st : Store) (chid : ChannelID) : Store :=
  fun c =>
    if c = chid then
      (st c).map (fun ch =>
        if IsChannelTerminated ch.status then ch else { ch with status := .failed })
    else st c

/-- An observable call the restart code makes on its collaborators, in
program order: connection protection, a network send, a transport channel
open, a transport configurer invocation, or `channels.Error`. -/
inductive Effect
  | protect (p : PeerID) (tag : String)
  | sendMessage (p : PeerID) (msg : DTMessage)
  | openChannel (p : PeerID) (chid : ChannelID) (root : Cid) (sel : Selector)
      (doNotSendCids : List Cid) (msg : TransferRequest)
  | configureTransport (chid : ChannelID) (vtype : TypeIdentifier)
  | errorChannel (chid : ChannelID)
deriving DecidableEq, Repr

/-- The manager's collaborators as the restart code uses them: its own peer
identity, the encoding environment, the voucher decoder
(`m.decodeVoucher` against `m.validatedTypes`), the transport configurer
registry lookup, the application validator (`m.validateVoucher`, returning
an error or success), and the outcome of the network send and of the
transport open. -/
structure ManagerEnv where
  peerID : PeerID
  enc : Enc
  decodeVoucher : TransferRequest → Option Voucher
  hasConfigurer : TypeIdentifier → Bool
  validateVoucher : PeerID → TransferRequest → Bool → Cid → Selector → Option String
  sendErr : Option String
  openErr : Option String

/-- `validateRestartVoucher` from part_000 lines 402 to 419: rebuild, via
`message.NewRequest` with the restart flag off, the request that would have
created the channel, and feed it through `validateVoucher`; either failure
aborts. -/
def validateRestartVoucher (m : ManagerEnv) (channel : ChanState)
    (isPull : Bool) : Except String Unit :=
  let chid := channel.channelID
  match NewRequest m.enc chid.id false isPull channel.voucher.Type
      channel.voucher channel.baseCID channel.selector with
  | .error e => .error e
  | .ok req =>
    match m.validateVoucher (channel.OtherParty m.peerID) req isPull
        channel.baseCID channel.selector with
    | some e => .error e
    | none => .ok ()

/-- `restartManagerPeerReceivePush` from part_000 lines 380 to 389:
re-validate the original voucher; on failure return the wrapped error
having called nothing; on success send a restart-existing-channel request
to the other party, returning the send's outcome. -/
def restartManagerPeerReceivePush (m : ManagerEnv) (channel : ChanState) :
    Except String Unit × List Effect :=
  match validateRestartVoucher m channel false with
  | .error e =>
    (.error ("failed to restart channel, validation error: " ++ e), [])
  | .ok _ =>
    let req := RestartExistingChannelRequest channel.channelID
    (match m.sendErr with
     | some e => .error e
     | none => .ok (),
     [.sendMessage (channel.OtherParty m.peerID) (.request req)])

/-- `restartManagerPeerReceivePull` from part_000 lines 391 to 400: the
pull-side twin of `restartManagerPeerReceivePush`. -/
def restartManagerPeerReceivePull (m : ManagerEnv) (channel : ChanState) :
    Except String Unit × List Effect :=
  match validateRestartVoucher m channel true with
  | .error e =>
    (.error ("failed to restart channel, validation error: " ++ e), [])
  | .ok _ =>
    let req := RestartExistingChannelRequest channel.channelID
    (match m.sendErr with
     | some e => .error e
     | none => .ok (),
     [.sendMessage (channel.OtherParty m.peerID) (.request req)])

/-- `openPushRestartChannel` from part_000 lines 421 to 446: build a
restart push request, run the transport configurer when one is registered
for the voucher type, protect the other party, then send the request; when
the send fails, call `channels.Error` on the channel and return the
wrapped send error. -/
def openPushRestartChannel (m : ManagerEnv) (st : Store) (channel : ChanState) :
    Except String Unit × Store × List Effect :=
  let voucher := channel.voucher
  let requestTo := channel.OtherParty m.peerID
  let chid := channel.channelID
  match NewRequest m.enc chid.id true false voucher.Type voucher
      channel.baseCID channel.selector with
  | .error e => (.error e, st, [])
  | .ok req =>
    let cfg := if m.hasConfigurer voucher.Type
      then [Effect.configureTransport chid voucher.Type] else []
    let effs := cfg ++ [Effect.protect requestTo chid.toString,
      Effect.sendMessage requestTo (.request req)]
    match m.sendErr with
    | some e =>
      (.error ("Unable to send request: " ++ e), channelsError st chid,
       effs ++ [Effect.errorChannel chid])
    | none => (.ok (), st, effs)

/-- `openPullRestartChannel` from part_000 lines 448 to 473: build a
restart pull request, run the transport configurer when one is registered,
protect the other party, then open the transport channel passing the
already-received CIDs; when the open fails, call `channels.Error` and
return the wrapped error. -/
def openPullRestartChannel (m : ManagerEnv) (st : Store) (channel : ChanState) :
    Except String Unit × Store × List Effect :=
  let voucher := channel.voucher
  let requestTo := channel.OtherParty m.peerID
  let chid := channel.channelID
  match NewRequest m.enc chid.id true true voucher.Type voucher
      channel.baseCID channel.selector with
  | .error e => (.error e, st, [])
  | .ok req =>
    let cfg := if m.hasConfigurer voucher.Type
      then [Effect.configureTransport chid voucher.Type] else []
    let effs := cfg ++ [Effect.protect requestTo chid.toString,
      Effect.openChannel requestTo chid channel.baseCID channel.selector
        channel.receivedCids req]
    match m.openErr with
    | some e =>
      (.error ("Unable to send request: " ++ e), channelsError st chid,
       effs ++ [Effect.errorChannel chid])
    | none => (.ok (), st, effs)

/-- The distinct rejection causes of `validateRestartRequest`, one per
early return of part_000 lines 475 to 520. -/
inductive RestartErr
  | channelNotFound
  | terminated
  | notInitiator
  | baseCidMismatch
  | decodeFailed
  | typesMismatch
  | encodeReqFailed
  | encodeChannelFailed
  | vouchersMismatch
deriving DecidableEq, Repr

/-- `validateRestartRequest` from part_000 lines 475 to 520, threaded
through the channel store so that its reads and writes are explicit: look
the channel up, require it non-terminal, require the channel initiator to
be the sending peer, require matching base CIDs, decode the request
voucher, require matching voucher types, encode both vouchers and require
byte equality. -/
def validateRestartRequest (m : ManagerEnv) (st : Store) (otherPeer : PeerID)
    (chid : ChannelID) (req : TransferRequest) : Option RestartErr × Store :=
  match st chid with
  | none => (some .channelNotFound, st)
  | some channel =>
    if IsChannelTerminated channel.status then (some .terminated, st)
    else if channel.channelID.initiator ≠ otherPeer then (some .notInitiator, st)
    else if req.BaseCid ≠ channel.baseCID then (some .baseCidMismatch, st)
    else
      match m.decodeVoucher req with
      | none => (some .decodeFailed, st)
      | some reqVoucher =>
        if reqVoucher.Type ≠ channel.voucher.Type then (some .typesMismatch, st)
        else
          match m.enc.encV reqVoucher with
          | none => (some .encodeReqFailed, st)
          | some reqBz =>
            match m.enc.encV channel.voucher with
            | none => (some .encodeChannelFailed, st)
            | some channelBz =>
              if reqBz ≠ channelBz then (some .vouchersMismatch, st)
              else (none, st)

/-- A total encoding environment: every voucher and selector encodes to its
payload. -/
def encId : Enc :=
  { encV := fun v => some v.payload, encS := fun s => some s.payload }

/-- A sample voucher. -/
def vch : Voucher := ⟨"t1", [1]⟩

/-- A sample selector. -/
def sel0 : Selector := ⟨[7]⟩

/-- A sample base CID. -/
def cidA : Cid := ⟨"bafyA"⟩

/-- A sample channel identifier. -/
def chidA : ChannelID := ⟨"alice", 11⟩

/-- A sample non-terminal channel: alice pushes to bob. -/
def chanA : ChanState :=
  { channelID := chidA, sender := "alice", recipient := "bob", baseCID := cidA,
    selector := sel0, voucher := vch, status := .ongoing,
    receivedCids := [cidA] }

/-- A manager environment on bob where every collaborator succeeds. -/
def envOK : ManagerEnv :=
  { peerID := "bob", enc := encId,
    decodeVoucher := fun r => some ⟨r.vTyp, r.vouch⟩,
    hasConfigurer := fun _ => true,
    validateVoucher := fun _ _ _ _ _ => none,
    sendErr := none, openErr := none }

/-- The same environment with the network send and the transport open
failing. -/
def envSendFail : ManagerEnv := { envOK with sendErr := some "boom", openErr := some "boom" }

/-- The same environment with the application validator rejecting. -/
def envBadVoucher : ManagerEnv :=
  { envOK with validateVoucher := fun _ _ _ _ _ => some "rejected" }

/-- A store holding exactly the sample channel. -/
def stA : Store := fun c => if c = chidA then some chanA else none

/-- The request NewRequest builds for the sample channel with the restart
flag off. -/
def req11 : TransferRequest :=
  { isRestart := false, complete := false, canc := false, updt := false,
    paus := false, pull := false, vTyp := "t1", vouch := [1], stor := [7],
    bCid := some cidA, xferID := 11, restartChannel := ⟨"", 0⟩ }

/-- The restart push request NewRequest builds for the sample channel. -/
def reqPush : TransferRequest := { req11 with isRestart := true }

/-- The restart pull request NewRequest builds for the sample channel. -/
def reqPull : TransferRequest := { req11 with isRestart := true, pull := true }

/-- C2: deserializing the serialized form of any request or response
message yields the message back, with no error: FromNet applied to the
bytes ToNet writes returns the original message. -/
theorem fromNet_toNet_roundtrip (msg : DTMessage) :
    FromNet (ToNet msg) = (some msg, none) := by
  cases msg with
  | request r =>
    obtain ⟨rs, co, ca, up, pa, pu, vt, vo, st, bc, x, ⟨ini, rid⟩⟩ := r
    cases bc with
    | none => rfl
    | some c => cases c; rfl
  | response s =>
    obtain ⟨co, vr, ac, ca, up, pa, vt, res, x⟩ := s
    rfl

/-- C8: every message exposes IsRequest, IsUpdate, IsPaused and IsCancel;
requests additionally expose IsRestart and IsComplete; responses
additionally expose Accepted and IsVoucherRequest; each observer returns
the corresponding flag of the message. -/
theorem message_flag_observers (r : TransferRequest) (s : TransferResponse) :
    r.IsRequest = true ∧ r.IsUpdate = r.updt ∧ r.IsPaused = r.paus ∧
      r.IsCancel = r.canc ∧ r.IsRestart = r.isRestart ∧
      r.IsComplete = r.complete ∧
      s.IsRequest = false ∧ s.IsUpdate = s.updt ∧ s.IsPaused = s.paus ∧
      s.IsCancel = s.canc ∧ s.Accepted = s.acpt ∧
      s.IsVoucherRequest = s.voucherRequest :=
  ⟨rfl, rfl, rfl, rfl, rfl, rfl, rfl, rfl, rfl, rfl, rfl, rfl⟩

/-- C9: whenever the partially decoded envelope reports a request, FromNet
returns the possibly absent request together with a nil error; the
unmarshal error is surfaced only when the envelope is a response. -/
theorem fromNet_request_error_policy (tks : List Tok) :
    ((unmarshalMessage tks).1.IsRequest = true →
      FromNet tks = ((unmarshalMessage tks).1.request.map DTMessage.request, none))
    ∧ (∀ e, (FromNet tks).2 = some e →
        (unmarshalMessage tks).1.IsRequest = false ∧
        (unmarshalMessage tks).2 = some e) := by
  constructor
  · intro h
    unfold FromNet
    simp [TransferMessage.IsRequest] at h
    simp [TransferMessage.IsRequest, h]
  · intro e h
    unfold FromNet at h
    by_cases hrq : (unmarshalMessage tks).1.IsRequest = true
    · simp [TransferMessage.IsRequest] at hrq
      simp [TransferMessage.IsRequest, hrq] at h
    · simp [TransferMessage.IsRequest] at hrq
      simp [TransferMessage.IsRequest, hrq] at h
      exact ⟨by simp [TransferMessage.IsRequest, hrq], h⟩

/-- A witness for C9: a request envelope with a malformed body comes back
from FromNet as an absent request with a nil error. -/
theorem fromNet_request_error_policy_witness :
    (unmarshalMessage [Tok.b true]).1.IsRequest = true ∧
      FromNet [Tok.b true] = (none, none) :=
  ⟨rfl, (fromNet_request_error_policy [Tok.b true]).1 rfl⟩

/-- C10: validateRestartRequest never mutates the channel store: whatever
it returns, the store it hands back is exactly the store it was given; the
transition to Failed on a rejected restart is left to the caller. -/
theorem validateRestartRequest_frame (m : ManagerEnv) (st : Store)
    (otherPeer : PeerID) (chid : ChannelID) (req : TransferRequest) :
    (validateRestartRequest m st otherPeer chid req).2 = st := by
  unfold validateRestartRequest
  rcases st chid with _ | channel
  · rfl
  dsimp only
  repeat' split
  all_goals rfl

/-- C3: NewRequest fails exactly when the base CID is the zero CID, the
voucher fails to encode, or the selector fails to encode; otherwise the
returned request carries the given transfer id, pull flag, voucher type
and base CID. -/
theorem newRequest_spec (enc : Enc) (id : TransferID) (isRestart isPull : Bool)
    (vtype : TypeIdentifier) (voucher : Voucher) (baseCid : Cid)
    (selector : Selector) :
    ((∃ e, NewRequest enc id isRestart isPull vtype voucher baseCid selector =
        .error e) ↔
      (baseCid = Cid.undef ∨ enc.encV voucher = none ∨ enc.encS selector = none))
    ∧ ∀ r, NewRequest enc id isRestart isPull vtype voucher baseCid selector =
        .ok r →
      r.xferID = id ∧ r.IsPull = isPull ∧ r.VoucherType = vtype ∧
        r.BaseCid = baseCid := by
  unfold NewRequest
  rcases hV : enc.encV voucher with _ | vb <;> dsimp only
  · constructor
    · exact ⟨fun _ => Or.inr (Or.inl rfl), fun _ => ⟨_, rfl⟩⟩
    · intro r hr; simp at hr
  · by_cases hB : baseCid = Cid.undef
    · rw [if_pos hB]
      constructor
      · exact ⟨fun _ => Or.inl hB, fun _ => ⟨_, rfl⟩⟩
      · intro r hr; simp at hr
    · rw [if_neg hB]
      rcases hS : enc.encS selector with _ | sb <;> dsimp only
      · constructor
        · exact ⟨fun _ => Or.inr (Or.inr rfl), fun _ => ⟨_, rfl⟩⟩
        · intro r hr; simp at hr
      · constructor
        · constructor
          · rintro ⟨e, he⟩; simp at he
          · rintro (h1 | h2 | h3)
            · exact absurd h1 hB
            · simp at h2
            · simp at h3
        · intro r hr
          injection hr with hr
          subst hr
          exact ⟨rfl, rfl, rfl, rfl⟩

/-- A witness for C3: NewRequest rejects the zero base CID and on the
sample inputs produces the request with the given id, pull flag, voucher
type and base CID. -/
theorem newRequest_spec_witness :
    (∃ e, NewRequest encId 11 false false "t1" vch Cid.undef sel0 = .error e)
    ∧ (req11.xferID = 11 ∧ req11.IsPull = false ∧ req11.VoucherType = "t1" ∧
        req11.BaseCid = cidA) :=
  ⟨(newRequest_spec encId 11 false false "t1" vch Cid.undef sel0).1.mpr
      (Or.inl rfl),
   (newRequest_spec encId 11 false false "t1" vch cidA sel0).2 req11 rfl⟩

/-- C4: the responder-side restart first re-validates the original voucher
through the reconstructed request (validateRestartVoucher builds it via
NewRequest and feeds it to validateVoucher); on validation failure the
wrapped error is returned and nothing is called; on success the only call
is sending the restart request, carrying the channel's ChannelID, to the
other party. -/
theorem restartManagerPeerReceive_spec (m : ManagerEnv) (channel : ChanState) :
    (∀ e, validateRestartVoucher m channel false = .error e →
      restartManagerPeerReceivePush m channel =
        (.error ("failed to restart channel, validation error: " ++ e), []))
    ∧ (validateRestartVoucher m channel false = .ok () →
      (restartManagerPeerReceivePush m channel).2 =
        [.sendMessage (channel.OtherParty m.peerID)
          (.request (RestartExistingChannelRequest channel.channelID))])
    ∧ (∀ e, validateRestartVoucher m channel true = .error e →
      restartManagerPeerReceivePull m channel =
        (.error ("failed to restart channel, validation error: " ++ e), []))
    ∧ (validateRestartVoucher m channel true = .ok () →
      (restartManagerPeerReceivePull m channel).2 =
        [.sendMessage (channel.OtherParty m.peerID)
          (.request (RestartExistingChannelRequest channel.channelID))]) := by
  refine ⟨fun e h => ?_, fun h => ?_, fun e h => ?_, fun h => ?_⟩ <;>
    first
      | (unfold restartManagerPeerReceivePush; rw [h])
      | (unfold restartManagerPeerReceivePull; rw [h])

/-- A witness for C4: with a rejecting validator the push restart returns
the wrapped error and performs no call; with an accepting one its only
call is the restart request send to the other party. -/
theorem restartManagerPeerReceive_spec_witness :
    restartManagerPeerReceivePush envBadVoucher chanA =
      (.error "failed to restart channel, validation error: rejected", [])
    ∧ (restartManagerPeerReceivePush envOK chanA).2 =
      [.sendMessage "alice" (.request (RestartExistingChannelRequest chidA))]
    ∧ (restartManagerPeerReceivePull envOK chanA).2 =
      [.sendMessage "alice" (.request (RestartExistingChannelRequest chidA))] :=
  ⟨(restartManagerPeerReceive_spec envBadVoucher chanA).1 "rejected" rfl,
   (restartManagerPeerReceive_spec envOK chanA).2.1 rfl,
   (restartManagerPeerReceive_spec envOK chanA).2.2.2 rfl⟩

/-- C5: as initiator, the push restart builds a restart push request,
invokes the transport configurer exactly when one is registered for the
voucher type, protects the other party, then sends the request on the
network; the pull restart does the same with the pull flag set, except
that instead of a network send it opens the transport channel passing the
already-received CIDs. -/
theorem openRestartChannel_effects (m : ManagerEnv) (st : Store)
    (channel : ChanState) :
    (∀ req, NewRequest m.enc channel.channelID.id true false
        channel.voucher.Type channel.voucher channel.baseCID
        channel.selector = .ok req →
      (openPushRestartChannel m st channel).2.2 =
        (if m.hasConfigurer channel.voucher.Type
          then [Effect.configureTransport channel.channelID
            channel.voucher.Type] else [])
        ++ [Effect.protect (channel.OtherParty m.peerID)
              channel.channelID.toString,
            Effect.sendMessage (channel.OtherParty m.peerID) (.request req)]
        ++ (match m.sendErr with
            | some _ => [Effect.errorChannel channel.channelID]
            | none => []))
    ∧ (∀ req, NewRequest m.enc channel.channelID.id true true
        channel.voucher.Type channel.voucher channel.baseCID
        channel.selector = .ok req →
      (openPullRestartChannel m st channel).2.2 =
        (if m.hasConfigurer channel.voucher.Type
          then [Effect.configureTransport channel.channelID
            channel.voucher.Type] else [])
        ++ [Effect.protect (channel.OtherParty m.peerID)
              channel.channelID.toString,
            Effect.openChannel (channel.OtherParty m.peerID)
              channel.channelID channel.baseCID channel.selector
              channel.receivedCids req]
        ++ (match m.openErr with
            | some _ => [Effect.errorChannel channel.channelID]
            | none => [])) := by
  constructor
  · intro req h
    unfold openPushRestartChannel
    dsimp only
    rw [h]
    rcases m.sendErr with _ | e <;> simp
  · intro req h
    unfold openPullRestartChannel
    dsimp only
    rw [h]
    rcases m.openErr with _ | e <;> simp

/-- A witness for C5: on the sample channel the push restart configures
the transport, protects alice, then sends the restart push request, and
the pull restart configures, protects, then opens the transport channel
with the received CIDs. -/
theorem openRestartChannel_effects_witness :
    (openPushRestartChannel envOK stA chanA).2.2 =
      [.configureTransport chidA "t1", .protect "alice" chidA.toString,
       .sendMessage "alice" (.request reqPush)]
    ∧ (openPullRestartChannel envOK stA chanA).2.2 =
      [.configureTransport chidA "t1", .protect "alice" chidA.toString,
       .openChannel "alice" chidA cidA sel0 [cidA] reqPull] :=
  ⟨(openRestartChannel_effects envOK stA chanA).1 reqPush rfl,
   (openRestartChannel_effects envOK stA chanA).2 reqPull rfl⟩

/-- C6: when the network send of the push restart or the transport open of
the pull restart fails, the wrapped error is returned to the caller and
the channel is moved to Failed through channels.Error; the last conjunct
records that channels.Error takes a non-terminal channel to the Failed
status. -/
theorem openRestartChannel_error_spec (m : ManagerEnv) (st : Store)
    (channel : ChanState) :
    (∀ req e, NewRequest m.enc channel.channelID.id true false
        channel.voucher.Type channel.voucher channel.baseCID
        channel.selector = .ok req → m.sendErr = some e →
      (openPushRestartChannel m st channel).1 =
        .error ("Unable to send request: " ++ e)
      ∧ (openPushRestartChannel m st channel).2.1 =
        channelsError st channel.channelID
      ∧ Effect.errorChannel channel.channelID ∈
        (openPushRestartChannel m st channel).2.2)
    ∧ (∀ req e, NewRequest m.enc channel.channelID.id true true
        channel.voucher.Type channel.voucher channel.baseCID
        channel.selector = .ok req → m.openErr = some e →
      (openPullRestartChannel m st channel).1 =
        .error ("Unable to send request: " ++ e)
      ∧ (openPullRestartChannel m st channel).2.1 =
        channelsError st channel.channelID
      ∧ Effect.errorChannel channel.channelID ∈
        (openPullRestartChannel m st channel).2.2)
    ∧ (∀ ch, st channel.channelID = some ch →
        IsChannelTerminated ch.status = false →
        channelsError st channel.channelID channel.channelID =
          some { ch with status := .failed }) := by
  refine ⟨fun req e h hs => ?_, fun req e h hs => ?_, fun ch hch hterm => ?_⟩
  · unfold openPushRestartChannel
    dsimp only
    rw [h, hs]
    refine ⟨rfl, rfl, ?_⟩
    simp
  · unfold openPullRestartChannel
    dsimp only
    rw [h, hs]
    refine ⟨rfl, rfl, ?_⟩
    simp
  · unfold channelsError
    simp [hch, hterm]

/-- A witness for C6: with the sample channel and a failing send and open,
both restart paths return the wrapped error, channels.Error is recorded,
and the store afterwards holds the channel in the Failed status. -/
theorem openRestartChannel_error_spec_witness :
    (openPushRestartChannel envSendFail stA chanA).1 =
      .error "Unable to send request: boom"
    ∧ (openPullRestartChannel envSendFail stA chanA).1 =
      .error "Unable to send request: boom"
    ∧ Effect.errorChannel chidA ∈ (openPushRestartChannel envSendFail stA chanA).2.2
    ∧ channelsError stA chidA chidA = some { chanA with status := .failed } :=
  ⟨((openRestartChannel_error_spec envSendFail stA chanA).1 reqPush "boom"
      rfl rfl).1,
   ((openRestartChannel_error_spec envSendFail stA chanA).2.1 reqPull "boom"
      rfl rfl).1,
   ((openRestartChannel_error_spec envSendFail stA chanA).1 reqPush "boom"
      rfl rfl).2.2,
   (openRestartChannel_error_spec envSendFail stA chanA).2.2 chanA rfl rfl⟩

/-- C1: validateRestartRequest returns nil exactly when the channel exists
in the store, is not terminal, its initiator is the peer that sent the
message, the request base CID equals the channel base CID, the request
voucher decodes and its type identifier equals the channel voucher's type
identifier, and the two vouchers encode to byte-for-byte equal blobs; as
soon as one of these fails it returns an error. -/
theorem validateRestartRequest_ok_iff (m : ManagerEnv) (st : Store)
    (otherPeer : PeerID) (chid : ChannelID) (req : TransferRequest) :
    (validateRestartRequest m st otherPeer chid req).1 = none ↔
      ∃ channel, st chid = some channel ∧
        IsChannelTerminated channel.status = false ∧
        channel.channelID.initiator = otherPeer ∧
        req.BaseCid = channel.baseCID ∧
        ∃ reqVoucher, m.decodeVoucher req = some reqVoucher ∧
          reqVoucher.Type = channel.voucher.Type ∧
          ∃ bz, m.enc.encV reqVoucher = some bz ∧
            m.enc.encV channel.voucher = some bz := by
  unfold validateRestartRequest
  rcases hch : st chid with _ | channel <;> dsimp only
  · simp
  by_cases hterm : IsChannelTerminated channel.status = true
  · rw [if_pos hterm]
    simp [hterm]
  rw [if_neg hterm]
  by_cases hinit : channel.channelID.initiator = otherPeer
  case neg =>
    rw [if_pos hinit]
    simp [hinit]
  rw [if_neg (not_not_intro hinit)]
  by_cases hbase : req.BaseCid = channel.baseCID
  case neg =>
    rw [if_pos hbase]
    simp [hbase]
  rw [if_neg (not_not_intro hbase)]
  rcases hdec : m.decodeVoucher req with _ | rv <;> dsimp only
  · simp
  by_cases htyp : rv.Type = channel.voucher.Type
  case neg =>
    rw [if_pos htyp]
    simp [htyp]
  rw [if_neg (not_not_intro htyp)]
  rcases hencR : m.enc.encV rv with _ | bzr <;> dsimp only
  · simp [hencR]
  rcases hencC : m.enc.encV channel.voucher with _ | bzc <;> dsimp only
  · simp [hencC]
  by_cases heq : bzr = bzc
  case neg =>
    rw [if_pos heq]
    simp [hencR, hencC, Ne.symm heq]
  rw [if_neg (not_not_intro heq)]
  constructor
  · intro _
    exact ⟨channel, rfl, by simpa using hterm, hinit, hbase, rv, rfl, htyp,
      bzr, hencR, by rw [hencC, heq]⟩
  · intro _
    rfl

end DataTransfer
